import Mathlib

/-!
# CyberDropDownloader — scrape-dispatch and pipeline model

A shallow embedding of the observable behaviour of
`cyberdrop_dl/scraper/scraper_helper.py` (`ScrapeMapper`) and of the
post-input part of `cyberdrop_dl/main.py` (`download_all`).

The crawlers themselves, the network and the file system are external
collaborators; what the embedding records is the sequence of observable
effects each operation performs: log lines, handler invocations, links
forwarded to the JDownloader sink, and lines appended to the
`Unsupported_Urls.txt` file.
-/

/-- Python's substring test `needle in hay`, on the character lists of the
two strings. -/
def charsInfix : List Char → List Char → Bool
  | needle, [] => needle.isEmpty
  | needle, c :: rest => needle.isPrefixOf (c :: rest) || charsInfix needle rest

/-- `strContainsSub hay needle` models Python's `needle in hay`. -/
def strContainsSub (hay needle : String) : Bool :=
  charsInfix needle.data hay.data

/-- The handlers registered in `ScrapeMapper.__init__`; one constructor per
bound method that appears as a value of `self.mapping`. -/
inductive HandlerId where
  | Anonfiles
  | XBunkr
  | Bunkr
  | coomer
  | Cyberdrop
  | cyberfile
  | Erome
  | gfycat
  | GoFile
  | ShareX
  | Kemono
  | Pixeldrain
  | Postimg
  | redgifs
  | Saint
  | SocialMediaGirls
  | SimpCity
  | XBunker
deriving DecidableEq, Repr

/-- The static key table `self.mapping` of `ScrapeMapper.__init__`
(lines 75–83), in its source (insertion) order; a Python dict iterates in
insertion order, which this list order encodes. -/
def mapping : List (String × HandlerId) :=
  [("anonfiles.com", .Anonfiles), ("bayfiles", .Anonfiles), ("xbunkr", .XBunkr),
   ("bunkr", .Bunkr),
   ("coomer.party", .coomer), ("cyberdrop", .Cyberdrop), ("cyberfile.is", .cyberfile),
   ("erome.com", .Erome), ("gfycat.com", .gfycat), ("gofile.io", .GoFile),
   ("img.kiwi", .ShareX), ("jpg.church", .ShareX), ("jpg.homes", .ShareX),
   ("kemono.party", .Kemono), ("pixeldrain.com", .Pixeldrain), ("pixl.is", .ShareX),
   ("postimg", .Postimg), ("putme.ga", .ShareX), ("putmega.com", .ShareX),
   ("redgifs.com", .redgifs), ("saint.to", .Saint), ("socialmediagirls", .SocialMediaGirls),
   ("simpcity", .SimpCity), ("xbunker", .XBunker)]

/-- A `yarl.URL` value as `map_url` observes it: its host (`None` when the
URL has no host), the remaining components that enter `URL.__bool__`, and
its string form `str(url)`. The netloc of the URL is represented by its
host part. -/
structure Url where
  host : Option String
  path : String := ""
  query : String := ""
  fragment : String := ""
  text : String
deriving DecidableEq, Repr

/-- `yarl.URL.__bool__`: a URL is truthy when its netloc, path, query or
fragment is non-empty. -/
def Url.truthy (u : Url) : Bool :=
  u.host.isSome || !(u.path == "") || !(u.query == "") || !(u.fragment == "")

/-- The configuration and environment oracles that decide the jdownloader
paths: the `AuthData` credentials and device name handed to the mapper,
whether `myjdapi` connect/get_device succeeds, and whether a
`linkgrabber.add_links` call on a live agent succeeds. -/
structure JDConfig where
  username : Option String
  password : Option String
  device : Option String
  connect_ok : Bool
  addlinks_ok : Bool
deriving DecidableEq, Repr

/-- The mutable `ScrapeMapper` fields the dispatch path reads and writes:
the jdownloader enable flag, the lazily created agent, and the
user-supplied `skip_data.sites` list. -/
structure MapperState where
  jdownloader_enable : Bool
  jdownloader_agent : Option String
  skip_sites : List String
deriving DecidableEq, Repr

/-- The observable effects of one `map_url` call: log lines emitted,
handler invocations `(key, handler)`, links successfully delivered to the
JDownloader sink, and lines appended to `Unsupported_Urls.txt`. -/
structure Effects where
  logs : List String := []
  invoked : List (String × HandlerId) := []
  forwarded : List String := []
  unsupportedWrites : List String := []
deriving DecidableEq, Repr

/-- Python truthiness of an optional string credential: falsy when absent
or empty. -/
def strFalsy : Option String → Bool
  | none => true
  | some s => s == ""

/-- `ScrapeMapper.jdownloader_setup` (lines 282–292): raise (and catch) when
a credential or the device name is falsy or the connection fails, logging
the failure and clearing the enable flag; otherwise store the device
agent. -/
def jdownloader_setup (cfg : JDConfig) (st : MapperState) : MapperState × List String :=
  if strFalsy cfg.username || strFalsy cfg.password || strFalsy cfg.device
      || !cfg.connect_ok then
    ({ st with jdownloader_enable := false }, ["Failed jdownloader setup"])
  else
    ({ st with jdownloader_agent := cfg.device }, [])

/-- The setup failure condition of `jdownloader_setup`. -/
def setupFails (cfg : JDConfig) : Bool :=
  strFalsy cfg.username || strFalsy cfg.password || strFalsy cfg.device || !cfg.connect_ok

/-- Python's `str.lower()` on the character list of the string. -/
def strLower (s : String) : String :=
  ⟨s.data.map Char.toLower⟩

/-- The blacklist test of `map_url` line 312:
`"facebook" in host.lower() or "instagram" in host.lower()`. -/
def metaHost (host : String) : Bool :=
  strContainsSub (strLower host) "facebook" || strContainsSub (strLower host) "instagram"

/-- `ScrapeMapper.map_url` (lines 294–321), returning the updated mapper
state and the observable effects of the call.  The argument is `none` for
a Python `None` input; a handler invocation is recorded as the pair of the
matched key and its handler. -/
def map_url (cfg : JDConfig) (st : MapperState) (url : Option Url) : MapperState × Effects :=
  match url with
  | none => (st, {})
  | some u =>
    if !u.truthy then
      (st, {})
    else
      match u.host with
      | none => (st, { logs := [u.text ++ " is not supported currently."] })
      | some host =>
        match mapping.find? (fun p => strContainsSub host p.1) with
        | some (key, handler) =>
          if st.skip_sites.contains key then
            (st, { logs := ["Skipping scrape of " ++ u.text] })
          else
            (st, { invoked := [(key, handler)] })
        | none =>
          if st.jdownloader_enable then
            let setupStep :=
              if st.jdownloader_agent.isNone then jdownloader_setup cfg st else (st, [])
            let st1 := setupStep.1
            let setupLogs := setupStep.2
            if metaHost host then
              (st1, { logs := setupLogs
                        ++ ["Failed to send " ++ u.text ++ " to JDownloader"] })
            else if st1.jdownloader_agent.isSome && cfg.addlinks_ok then
              (st1, { logs := setupLogs
                        ++ ["Sending " ++ u.text ++ " to JDownloader"],
                      forwarded := [u.text] })
            else
              (st1, { logs := setupLogs
                        ++ ["Sending " ++ u.text ++ " to JDownloader",
                            "Failed to send " ++ u.text ++ " to JDownloader"] })
          else
            (st, { logs := [u.text ++ " is not supported currently."],
                   unsupportedWrites := [u.text ++ "\n"] })

/-- Dispatching a sequence of links one after the other, threading the
mapper state and collecting each call's effects. -/
def map_urls (cfg : JDConfig) : MapperState → List (Option Url) → MapperState × List Effects
  | st, [] => (st, [])
  | st, u :: us =>
    let r1 := map_url cfg st u
    let r2 := map_urls cfg r1.1 us
    (r2.1, r1.2 :: r2.2)

/-- A truthy URL whose host resolves but matches no key of the table. -/
def unmatchedHost (u : Url) : Bool :=
  u.truthy &&
    (match u.host with
     | none => false
     | some h => (mapping.find? (fun p => strContainsSub h p.1)).isNone)

/-- The effects `map_url` produces for an unmatched link when the
jdownloader sink is disabled: the unsupported log line and one appended
line in `Unsupported_Urls.txt`. -/
def unsupportedEffect (u : Url) : Effects :=
  { logs := [u.text ++ " is not supported currently."],
    unsupportedWrites := [u.text ++ "\n"] }

/-- Builds the `Url` for a link with a resolvable host. -/
def mkUrl (h t : String) : Url :=
  { host := some h, text := t }

/-- The `GofileCrawler` instance stored in `self.gofile_crawler`; its
internals (the API token it acquires) are abstracted away. -/
structure GofileCrawler where
  unit : Unit := ()
deriving DecidableEq, Repr

/-- The observable effects of one `ScrapeMapper.GoFile` call:
how many times `GofileCrawler()` was invoked, the log lines, and the URLs
handed to `crawler.fetch`. -/
structure GoFileEffects where
  constructions : Nat := 0
  logs : List String := []
  fetched : List String := []
deriving DecidableEq, Repr

/-- `ScrapeMapper.GoFile` (lines 147–159): when the slot is empty, attempt
`GofileCrawler()`; `construct_ok` is the oracle for whether that
constructor raises.  On failure the broad `except` logs a diagnostic and
the handler returns; on success (or with a previously stored instance) the
URL is fetched. -/
def GoFile (construct_ok : Bool) (slot : Option GofileCrawler) (urlText : String) :
    Option GofileCrawler × GoFileEffects :=
  match slot with
  | none =>
    if construct_ok then
      (some {}, { constructions := 1, fetched := [urlText] })
    else
      (none, { constructions := 1, logs := ["Couldn't start the GoFile crawler"] })
  | some c => (some c, { fetched := [urlText] })

/-- A run of consecutive `GoFile` calls (one per gofile link dispatched),
threading the crawler slot and accumulating effects. -/
def goFileRun (construct_ok : Bool) : Option GofileCrawler → List String →
    Option GofileCrawler × GoFileEffects
  | slot, [] => (slot, {})
  | slot, u :: us =>
    let r1 := GoFile construct_ok slot u
    let r2 := goFileRun construct_ok r1.1 us
    (r2.1, { constructions := r1.2.constructions + r2.2.constructions,
             logs := r1.2.logs ++ r2.2.logs,
             fetched := r1.2.fetched ++ r2.2.fetched })

/-- The `AnonfilesCrawler` instance stored in `self.anonfiles_crawler`,
remembering the `include_id` flag it was constructed with. -/
structure AnonfilesCrawler where
  include_id : Bool
deriving DecidableEq, Repr

/-- The lazy-construction step of `ScrapeMapper.Anonfiles` (lines 85–93):
`if not self.anonfiles_crawler: self.anonfiles_crawler = AnonfilesCrawler(...)`.
Returns the updated slot, how many times the constructor ran (0 or 1), and
the instance the call fetches with. -/
def anonfilesCall (include_id : Bool) (slot : Option AnonfilesCrawler) :
    Option AnonfilesCrawler × Nat × AnonfilesCrawler :=
  match slot with
  | none => (some { include_id := include_id }, 1, { include_id := include_id })
  | some c => (some c, 0, c)

/-- `n` consecutive invocations of the Anonfiles handler, returning the
final slot and the total number of constructor calls. -/
def anonfilesRun (include_id : Bool) : Option AnonfilesCrawler → Nat →
    Option AnonfilesCrawler × Nat
  | slot, 0 => (slot, 0)
  | slot, n + 1 =>
    let r1 := anonfilesCall include_id slot
    let r2 := anonfilesRun include_id r1.1 n
    (r2.1, r1.2.1 + r2.2)

/-- The observable steps of `download_all` in `main.py` from the point the
link list has been assembled (line 89 onward). -/
inductive RunEvent where
  | logMsg (s : String)
  | debugError (s : String)
  | clearScreen
  | scrapePhase
  | buildDownloaders
  | downloadContent
  | exitProgram (code : Nat)
deriving DecidableEq, Repr

/-- The log line emitted at line 92 when the assembled link list is empty. -/
def noLinksInputMsg : String :=
  "No links found, check the URL.txt\nIf the link works in your web browser, please open an issue ticket with me."

/-- The two log lines of the empty-scrape report (lines 116–117). -/
def noLinksScrapeMsg : String :=
  "No links found duing scraping, check passwords or that the urls are accessible"

def noLinksScrapeMsg2 : String :=
  "This program does not currently support password protected albums."

/-- `download_all` (lines 89–137) as the trace of its observable steps:
`links` is the filtered link list, `scrape_empty` the value of
`content_object.is_empty()` after the scrape phase, and `has_partials`
whether leftover `*.part` files remain at the end. -/
def download_all (links : List String) (scrape_empty : Bool) (has_partials : Bool) :
    List RunEvent :=
  (if links.isEmpty then [RunEvent.logMsg noLinksInputMsg] else [])
  ++ [RunEvent.scrapePhase]
  ++ (if scrape_empty then
        [RunEvent.debugError "ValueError No links",
         RunEvent.logMsg noLinksScrapeMsg,
         RunEvent.logMsg noLinksScrapeMsg2,
         RunEvent.exitProgram 0]
      else
        [RunEvent.clearScreen, RunEvent.buildDownloaders, RunEvent.downloadContent,
         RunEvent.logMsg "Purging empty directories",
         RunEvent.logMsg "Finished downloading. Enjoy :)"]
        ++ (if has_partials then
              [RunEvent.logMsg "There are still partial downloads in your folders, please re-run the program."]
            else []))

/-- The argument namespace produced by `parse_args` in `main.py`: one field
per `add_argument` call, as `vars(args)` exposes them. -/
structure Args where
  input_file : String
  output_folder : String
  log_file : String
  db_file : String
  threads : Nat
  attempts : Nat
  connection_timeout : Nat
  disable_attempt_limit : Bool
  include_id : Bool
  exclude_videos : Bool
  exclude_images : Bool
  exclude_audio : Bool
  exclude_other : Bool
  ignore_history : Bool
  output_last_forum_post : Bool
  proxy : Option String
  separate_posts : Bool
  xbunker_username : Option String
  xbunker_password : Option String
  socialmediagirls_username : Option String
  socialmediagirls_password : Option String
  simpcity_username : Option String
  simpcity_password : Option String
  jdownloader_enable : Bool
  jdownloader_username : Option String
  jdownloader_password : Option String
  jdownloader_device : Option String
  skip_hosts : List String
  ratelimit : Nat
  throttle : Nat
  links : List String
deriving DecidableEq, Repr

/-- The redaction `download_all` performs on its copy `print_args` of the
namespace (lines 64–68): the four password entries are overwritten with
the literal `!REDACTED!` before the namespace is logged. -/
def redactArgs (a : Args) : Args :=
  { a with xbunker_password := some "!REDACTED!",
           socialmediagirls_password := some "!REDACTED!",
           simpcity_password := some "!REDACTED!",
           jdownloader_password := some "!REDACTED!" }

/-- Forgets the four password fields; two namespaces are "equal up to
passwords" exactly when their scrubs are equal. -/
def scrubPasswords (a : Args) : Args :=
  { a with xbunker_password := none,
           socialmediagirls_password := none,
           simpcity_password := none,
           jdownloader_password := none }

/-- Python's rendering of an optional string in a namespace dict. -/
def optRender : Option String → String
  | none => "None"
  | some s => s

/-- Python's rendering of a bool in a namespace dict. -/
def boolRender (b : Bool) : String :=
  cond b "True" "False"

/-- The rendering of the namespace dict into the debug-log line: every
entry of `vars(args)`, in declaration order. -/
def argsRender (a : Args) : String :=
  String.intercalate ", "
    ["input_file=" ++ a.input_file,
     "output_folder=" ++ a.output_folder,
     "log_file=" ++ a.log_file,
     "db_file=" ++ a.db_file,
     "threads=" ++ toString a.threads,
     "attempts=" ++ toString a.attempts,
     "connection_timeout=" ++ toString a.connection_timeout,
     "disable_attempt_limit=" ++ boolRender a.disable_attempt_limit,
     "include_id=" ++ boolRender a.include_id,
     "exclude_videos=" ++ boolRender a.exclude_videos,
     "exclude_images=" ++ boolRender a.exclude_images,
     "exclude_audio=" ++ boolRender a.exclude_audio,
     "exclude_other=" ++ boolRender a.exclude_other,
     "ignore_history=" ++ boolRender a.ignore_history,
     "output_last_forum_post=" ++ boolRender a.output_last_forum_post,
     "proxy=" ++ optRender a.proxy,
     "separate_posts=" ++ boolRender a.separate_posts,
     "xbunker_username=" ++ optRender a.xbunker_username,
     "xbunker_password=" ++ optRender a.xbunker_password,
     "socialmediagirls_username=" ++ optRender a.socialmediagirls_username,
     "socialmediagirls_password=" ++ optRender a.socialmediagirls_password,
     "simpcity_username=" ++ optRender a.simpcity_username,
     "simpcity_password=" ++ optRender a.simpcity_password,
     "jdownloader_enable=" ++ boolRender a.jdownloader_enable,
     "jdownloader_username=" ++ optRender a.jdownloader_username,
     "jdownloader_password=" ++ optRender a.jdownloader_password,
     "jdownloader_device=" ++ optRender a.jdownloader_device,
     "skip_hosts=" ++ String.intercalate ";" a.skip_hosts,
     "ratelimit=" ++ toString a.ratelimit,
     "throttle=" ++ toString a.throttle,
     "links=" ++ String.intercalate ";" a.links]

/-- The argument line written to the debug log at startup (line 70):
the namespace is rendered only after the password redaction. -/
def loggedArgsLine (a : Args) : String :=
  "Starting downloader with args: " ++ argsRender (redactArgs a)

/-- A namespace holding every parser default of `parse_args`. -/
def argsBase : Args :=
  { input_file := "URLs.txt", output_folder := "Downloads",
    log_file := "downloader.log", db_file := "download_history.sqlite",
    threads := 0, attempts := 10, connection_timeout := 15,
    disable_attempt_limit := false, include_id := false,
    exclude_videos := false, exclude_images := false, exclude_audio := false,
    exclude_other := false, ignore_history := false,
    output_last_forum_post := false, proxy := none, separate_posts := false,
    xbunker_username := none, xbunker_password := none,
    socialmediagirls_username := none, socialmediagirls_password := none,
    simpcity_username := none, simpcity_password := none,
    jdownloader_enable := false, jdownloader_username := none,
    jdownloader_password := none, jdownloader_device := none,
    skip_hosts := [], ratelimit := 50, throttle := 0, links := [] }

/-- `List.find?` returns the marked element when it satisfies the predicate
and everything before it fails it. -/
theorem find?_append_cons {α : Type} (p : α → Bool) (l1 l2 : List α) (a : α)
    (ha : p a = true) (h1 : ∀ x ∈ l1, p x = false) :
    (l1 ++ a :: l2).find? p = some a := by
  induction l1 with
  | nil =>
    rw [List.nil_append, List.find?_cons_of_pos _ ha]
  | cons x xs ih =>
    have hx : p x = false := h1 x (List.mem_cons_self x xs)
    rw [List.cons_append, List.find?_cons_of_neg _ (by simp [hx])]
    exact ih fun y hy => h1 y (List.mem_cons_of_mem x hy)

/-- C1: for an input URL with a resolvable host, `map_url` scans the key
table in its fixed order and invokes the handler of the first key that is
a substring of the host (here: the key at the split point, with every
earlier key failing the substring test), invoking exactly that one handler
and changing nothing else — no later matching key's handler is invoked. -/
theorem map_url_first_match_wins
    (cfg : JDConfig) (st : MapperState) (u : Url) (h key : String) (hd : HandlerId)
    (pre post : List (String × HandlerId))
    (htr : u.truthy = true) (hh : u.host = some h)
    (hsplit : mapping = pre ++ (key, hd) :: post)
    (hmatch : strContainsSub h key = true)
    (hpre : ∀ p ∈ pre, strContainsSub h p.1 = false)
    (hskip : st.skip_sites.contains key = false) :
    map_url cfg st (some u) = (st, { invoked := [(key, hd)] }) := by
  have hfind : mapping.find? (fun p => strContainsSub h p.1) = some (key, hd) := by
    rw [hsplit]
    exact find?_append_cons _ _ _ _ hmatch hpre
  have hskip' : key ∉ st.skip_sites := by simpa using hskip
  simp [map_url, htr, hh, hfind, hskip']

/-- Witness for C1: `https://xbunkr.com/a/b` matches the key `"xbunkr"`
(table position 3) and dispatches to the XBunkr handler only, although the
later key `"bunkr"` also matches the host. -/
theorem map_url_first_match_wins_witness :
    map_url ⟨none, none, none, false, false⟩ ⟨false, none, []⟩
        (some (mkUrl "xbunkr.com" "https://xbunkr.com/a/b"))
      = (⟨false, none, []⟩, { invoked := [("xbunkr", HandlerId.XBunkr)] }) :=
  map_url_first_match_wins _ _ _ "xbunkr.com" "xbunkr" HandlerId.XBunkr
    (mapping.take 2) (mapping.drop 3) rfl rfl (by decide) (by decide) (by decide) rfl

/-- C3: when the first matching key is in the user-supplied skip set,
`map_url` logs a skip message and returns: no handler invocation, no sink
forwarding, no unsupported-file write, and the mapper state is unchanged. -/
theorem map_url_skip_site
    (cfg : JDConfig) (st : MapperState) (u : Url) (h key : String) (hd : HandlerId)
    (pre post : List (String × HandlerId))
    (htr : u.truthy = true) (hh : u.host = some h)
    (hsplit : mapping = pre ++ (key, hd) :: post)
    (hmatch : strContainsSub h key = true)
    (hpre : ∀ p ∈ pre, strContainsSub h p.1 = false)
    (hskip : st.skip_sites.contains key = true) :
    map_url cfg st (some u) = (st, { logs := ["Skipping scrape of " ++ u.text] }) := by
  have hfind : mapping.find? (fun p => strContainsSub h p.1) = some (key, hd) := by
    rw [hsplit]
    exact find?_append_cons _ _ _ _ hmatch hpre
  have hskip' : key ∈ st.skip_sites := by simpa using hskip
  simp [map_url, htr, hh, hfind, hskip']

/-- Witness for C3: with `"bunkr"` in the skip set, a bunkr link is only
logged as skipped, with no invocation, forward or write. -/
theorem map_url_skip_site_witness :
    map_url ⟨none, none, none, false, false⟩ ⟨true, some "dev", ["bunkr"]⟩
        (some (mkUrl "bunkr.is" "https://bunkr.is/a/c"))
      = (⟨true, some "dev", ["bunkr"]⟩,
         { logs := ["Skipping scrape of https://bunkr.is/a/c"] }) :=
  map_url_skip_site _ _ _ "bunkr.is" "bunkr" HandlerId.Bunkr
    (mapping.take 3) (mapping.drop 4) rfl rfl (by decide) (by decide) (by decide) rfl

/-- C5: an unmatched URL whose host contains `facebook` or `instagram`
(case-insensitively) is never handed to the JDownloader sink, whatever the
enable flag, agent and connection state are. -/
theorem map_url_meta_never_forwarded
    (cfg : JDConfig) (st : MapperState) (u : Url) (h : String)
    (htr : u.truthy = true) (hh : u.host = some h)
    (hfind : mapping.find? (fun p => strContainsSub h p.1) = none)
    (hmeta : metaHost h = true) :
    (map_url cfg st (some u)).2.forwarded = [] := by
  cases hen : st.jdownloader_enable <;>
    simp [map_url, htr, hh, hfind, hen, hmeta]

/-- Witness for C5: a facebook link is not forwarded even with the sink
enabled, an agent connected and `add_links` able to succeed. -/
theorem map_url_meta_never_forwarded_witness :
    (map_url ⟨some "u", some "p", some "dev", true, true⟩ ⟨true, some "dev", []⟩
        (some (mkUrl "www.facebook.com" "https://www.facebook.com/p/1"))).2.forwarded
      = [] :=
  map_url_meta_never_forwarded _ _ _ "www.facebook.com" rfl rfl (by decide) (by decide)

/-- C8: a falsy input — `None` or an empty (falsy) URL — makes `map_url`
return at once with no observable effect and no state change, while a
truthy URL without a host is logged as unsupported (and nothing more). -/
theorem map_url_falsy_no_effect
    (cfg : JDConfig) (st : MapperState) (u v : Url)
    (hu : u.truthy = false) (hv : v.truthy = true) (hvh : v.host = none) :
    map_url cfg st none = (st, {})
    ∧ map_url cfg st (some u) = (st, {})
    ∧ map_url cfg st (some v)
        = (st, { logs := [v.text ++ " is not supported currently."] }) := by
  refine ⟨rfl, ?_, ?_⟩ <;> simp [map_url, hu, hv, hvh]

/-- Witness for C8: the empty URL (all components empty) produces no
effect at all; the host-less URL `/x` is logged as unsupported. -/
theorem map_url_falsy_no_effect_witness :
    map_url ⟨none, none, none, false, false⟩ ⟨true, some "dev", []⟩ none
      = (⟨true, some "dev", []⟩, {})
    ∧ map_url ⟨none, none, none, false, false⟩ ⟨true, some "dev", []⟩
        (some { host := none, text := "" })
      = (⟨true, some "dev", []⟩, {})
    ∧ map_url ⟨none, none, none, false, false⟩ ⟨true, some "dev", []⟩
        (some { host := none, path := "/x", text := "/x" })
      = (⟨true, some "dev", []⟩, { logs := ["/x is not supported currently."] }) :=
  map_url_falsy_no_effect _ _ _ _ rfl rfl rfl

/-- Counterexample for C2: with the jdownloader sink enabled and connected
but `add_links` failing, the unmatched link is only logged as failed — the
claimed append to the unsupported-links file does not happen. -/
theorem map_url_forward_failure_no_write_cex :
    (map_url ⟨some "user", some "pass", some "dev", true, false⟩ ⟨true, some "dev", []⟩
        (some (mkUrl "unknownhost.example" "https://unknownhost.example/x"))).2
      = { logs := ["Sending https://unknownhost.example/x to JDownloader",
                   "Failed to send https://unknownhost.example/x to JDownloader"] }
    ∧ ¬ ((map_url ⟨some "user", some "pass", some "dev", true, false⟩ ⟨true, some "dev", []⟩
        (some (mkUrl "unknownhost.example" "https://unknownhost.example/x"))).2.unsupportedWrites
      = ["https://unknownhost.example/x\n"]) := by
  exact ⟨by decide, by decide⟩

/-- C2 as amended: for an unmatched link, `map_url` appends to the
unsupported-links file exactly when the jdownloader sink is disabled; with
the sink enabled, a failed forwarding attempt only logs and writes
nothing. -/
theorem map_url_unmatched_write_iff_disabled
    (cfg : JDConfig) (st : MapperState) (u : Url)
    (hu : unmatchedHost u = true) :
    (map_url cfg st (some u)).2.unsupportedWrites
      = if st.jdownloader_enable then [] else [u.text ++ "\n"] := by
  cases hh : u.host with
  | none => simp [unmatchedHost, hh] at hu
  | some h =>
    simp only [unmatchedHost, hh, Bool.and_eq_true, Option.isNone_iff_eq_none] at hu
    obtain ⟨htr, hfind⟩ := hu
    cases hen : st.jdownloader_enable with
    | false => simp [map_url, htr, hh, hfind, hen]
    | true =>
      simp [map_url, htr, hh, hfind, hen]
      split
      · rfl
      · split <;> split <;> rfl

/-- Witness for C2 (amended): an unmatched link with the sink disabled is
appended to the unsupported-links file. -/
theorem map_url_unmatched_write_iff_disabled_witness :
    (map_url ⟨none, none, none, false, false⟩ ⟨false, none, []⟩
        (some (mkUrl "nohandler.example" "https://nohandler.example/z"))).2.unsupportedWrites
      = if (⟨false, none, []⟩ : MapperState).jdownloader_enable then []
        else ["https://nohandler.example/z\n"] :=
  map_url_unmatched_write_iff_disabled _ _ _ (by decide)

/-- Counterexample for C4: with `GofileCrawler()` failing, the second
gofile link attempts construction again — two links make two construction
attempts, so the handler is not disabled after the first failure. -/
theorem goFile_retries_construction_cex :
    (goFileRun false none ["https://gofile.io/d/a", "https://gofile.io/d/b"]).2.constructions = 2
    ∧ (GoFile false (GoFile false none "https://gofile.io/d/a").1
        "https://gofile.io/d/b").2.constructions = 1 :=
  ⟨rfl, rfl⟩

/-- C4 as amended: every call that finds the slot empty and whose
construction fails logs the diagnostic and returns without raising or
fetching; the run continues, the slot stays empty, and each later link
retries construction (one attempt per link). -/
theorem goFileRun_construction_failure (urls : List String) :
    goFileRun false none urls
      = (none, { constructions := urls.length,
                 logs := List.replicate urls.length "Couldn't start the GoFile crawler",
                 fetched := [] }) := by
  induction urls with
  | nil => rfl
  | cons u us ih => simp [goFileRun, GoFile, ih, List.replicate_succ, Nat.add_comm]

/-- Once the Anonfiles slot holds an instance, any number of further calls
reconstructs nothing and keeps that instance. -/
theorem anonfilesRun_some (b : Bool) (c : AnonfilesCrawler) :
    ∀ n, anonfilesRun b (some c) n = (some c, 0) := by
  intro n
  induction n with
  | zero => rfl
  | succ n ih => simp [anonfilesRun, anonfilesCall, ih]

/-- C7: the crawler is constructed at most once per run — starting from an
occupied slot, `n` invocations call the constructor zero times and keep
the stored instance; starting from the empty slot, the first of `n + 1`
invocations constructs the instance and the whole run constructs exactly
once. -/
theorem anonfiles_crawler_constructed_once (b : Bool) (n : Nat) :
    (∀ c : AnonfilesCrawler, anonfilesRun b (some c) n = (some c, 0))
    ∧ anonfilesRun b none (n + 1) = (some { include_id := b }, 1) := by
  refine ⟨fun c => anonfilesRun_some b c n, ?_⟩
  simp [anonfilesRun, anonfilesCall, anonfilesRun_some]

/-- C6: when the scrape phase yields an empty content tree although the
link list was nonempty, the run reports the explicit no-links-found
condition and exits with code 0 before any downloader is built or any
download starts; none of the end-of-run messages appear in the trace. -/
theorem download_all_empty_scrape (links : List String) (hp : Bool)
    (hne : links ≠ []) :
    download_all links true hp
      = [RunEvent.scrapePhase, RunEvent.debugError "ValueError No links",
         RunEvent.logMsg noLinksScrapeMsg, RunEvent.logMsg noLinksScrapeMsg2,
         RunEvent.exitProgram 0]
    ∧ RunEvent.buildDownloaders ∉ download_all links true hp
    ∧ RunEvent.downloadContent ∉ download_all links true hp
    ∧ RunEvent.logMsg "Finished downloading. Enjoy :)" ∉ download_all links true hp := by
  have hle : links.isEmpty = false := by
    cases links with
    | nil => exact absurd rfl hne
    | cons a as => rfl
  have htrace : download_all links true hp
      = [RunEvent.scrapePhase, RunEvent.debugError "ValueError No links",
         RunEvent.logMsg noLinksScrapeMsg, RunEvent.logMsg noLinksScrapeMsg2,
         RunEvent.exitProgram 0] := by
    simp [download_all, hle]
  refine ⟨htrace, ?_, ?_, ?_⟩ <;> rw [htrace] <;> decide

/-- Witness for C6: one input link, empty scrape result. -/
theorem download_all_empty_scrape_witness :
    download_all ["https://example.com/a"] true false
      = [RunEvent.scrapePhase, RunEvent.debugError "ValueError No links",
         RunEvent.logMsg noLinksScrapeMsg, RunEvent.logMsg noLinksScrapeMsg2,
         RunEvent.exitProgram 0]
    ∧ RunEvent.buildDownloaders ∉ download_all ["https://example.com/a"] true false
    ∧ RunEvent.downloadContent ∉ download_all ["https://example.com/a"] true false
    ∧ RunEvent.logMsg "Finished downloading. Enjoy :)"
        ∉ download_all ["https://example.com/a"] true false :=
  download_all_empty_scrape _ _ (by decide)

/-- Scrubbing before redacting changes nothing: redaction overwrites every
scrubbed field. -/
theorem redact_scrub (a : Args) : redactArgs (scrubPasswords a) = redactArgs a := rfl

/-- C9: the logged argument line replaces all four password fields by
`!REDACTED!`, so two runs whose namespaces differ only in password values
log an identical argument line. -/
theorem logged_args_password_free (a b : Args)
    (hab : scrubPasswords a = scrubPasswords b) :
    loggedArgsLine a = loggedArgsLine b
    ∧ (redactArgs a).xbunker_password = some "!REDACTED!"
    ∧ (redactArgs a).socialmediagirls_password = some "!REDACTED!"
    ∧ (redactArgs a).simpcity_password = some "!REDACTED!"
    ∧ (redactArgs a).jdownloader_password = some "!REDACTED!" := by
  have h : redactArgs a = redactArgs b := by
    rw [← redact_scrub a, ← redact_scrub b, hab]
  exact ⟨by simp only [loggedArgsLine, h], rfl, rfl, rfl, rfl⟩

/-- Witness for C9: two namespaces differing only in two password values
produce the same logged line. -/
theorem logged_args_password_free_witness :
    loggedArgsLine { argsBase with xbunker_password := some "hunter2",
                                   jdownloader_password := some "aaa" }
      = loggedArgsLine { argsBase with xbunker_password := some "swordfish",
                                       jdownloader_password := some "bbb" } :=
  (logged_args_password_free _ _ rfl).1

/-- An unmatched link dispatched with the sink disabled is logged and
appended to the unsupported-links file, and the state is untouched. -/
theorem map_url_unmatched_disabled (cfg : JDConfig) (st : MapperState) (u : Url)
    (hdis : st.jdownloader_enable = false) (hu : unmatchedHost u = true) :
    map_url cfg st (some u) = (st, unsupportedEffect u) := by
  cases hh : u.host with
  | none => simp [unmatchedHost, hh] at hu
  | some h =>
    simp only [unmatchedHost, hh, Bool.and_eq_true, Option.isNone_iff_eq_none] at hu
    obtain ⟨htr, hfind⟩ := hu
    simp [map_url, htr, hh, hfind, hdis, unsupportedEffect]

/-- With the sink disabled, a sequence of unmatched links is written to the
unsupported-links file one line each, and the state never changes. -/
theorem map_urls_all_unsupported (cfg : JDConfig) (st : MapperState) (vs : List Url)
    (hdis : st.jdownloader_enable = false)
    (hall : ∀ v ∈ vs, unmatchedHost v = true) :
    map_urls cfg st (vs.map some) = (st, vs.map unsupportedEffect) := by
  induction vs with
  | nil => rfl
  | cons v vs ih =>
    have h1 := map_url_unmatched_disabled cfg st v hdis (hall v (List.mem_cons_self v vs))
    have h2 := ih (fun w hw => hall w (List.mem_cons_of_mem v hw))
    simp [map_urls, h1, h2]

/-- C10: when `jdownloader_setup` fails during the dispatch of an unmatched
link, that link is neither forwarded nor written to the unsupported-links
file, the failure clears the enable flag, and every unmatched link
dispatched afterwards is appended to the unsupported-links file instead of
being forwarded. -/
theorem jdownloader_setup_failure_disables_sink
    (cfg : JDConfig) (st : MapperState) (u : Url) (rest : List Url)
    (hfail : setupFails cfg = true)
    (hen : st.jdownloader_enable = true) (hag : st.jdownloader_agent = none)
    (hu : unmatchedHost u = true) (hrest : ∀ v ∈ rest, unmatchedHost v = true) :
    ∃ eff1 : Effects,
      (map_urls cfg st (some u :: rest.map some)).2 = eff1 :: rest.map unsupportedEffect
      ∧ eff1.forwarded = []
      ∧ eff1.unsupportedWrites = []
      ∧ (map_url cfg st (some u)).1.jdownloader_enable = false := by
  cases hh : u.host with
  | none => simp [unmatchedHost, hh] at hu
  | some h =>
    simp only [unmatchedHost, hh, Bool.and_eq_true, Option.isNone_iff_eq_none] at hu
    obtain ⟨htr, hfind⟩ := hu
    have hc : (strFalsy cfg.username || strFalsy cfg.password || strFalsy cfg.device
        || !cfg.connect_ok) = true := by simpa [setupFails] using hfail
    have hsetup : jdownloader_setup cfg st
        = ({ st with jdownloader_enable := false }, ["Failed jdownloader setup"]) := by
      simp [jdownloader_setup, hc]
    have hstep : ∃ eff1 : Effects,
        map_url cfg st (some u) = ({ st with jdownloader_enable := false }, eff1)
        ∧ eff1.forwarded = [] ∧ eff1.unsupportedWrites = [] := by
      cases hmeta : metaHost h with
      | true =>
        refine ⟨{ logs := ["Failed jdownloader setup",
                           "Failed to send " ++ u.text ++ " to JDownloader"] }, ?_, rfl, rfl⟩
        simp [map_url, htr, hh, hfind, hen, hag, hsetup, hmeta]
      | false =>
        refine ⟨{ logs := ["Failed jdownloader setup",
                           "Sending " ++ u.text ++ " to JDownloader",
                           "Failed to send " ++ u.text ++ " to JDownloader"] }, ?_, rfl, rfl⟩
        simp [map_url, htr, hh, hfind, hen, hag, hsetup, hmeta]
    obtain ⟨eff1, he1, hf1, hw1⟩ := hstep
    have hrest' := map_urls_all_unsupported cfg { st with jdownloader_enable := false }
      rest rfl hrest
    refine ⟨eff1, ?_, hf1, hw1, by rw [he1]⟩
    simp [map_urls, he1, hrest']

/-- Witness for C10: credentials absent, so setup fails on the first
unmatched link; it is neither forwarded nor written, and the next
unmatched link goes to the unsupported-links file. -/
theorem jdownloader_setup_failure_disables_sink_witness :
    ∃ eff1 : Effects,
      (map_urls ⟨none, none, none, false, false⟩ ⟨true, none, []⟩
          (some (mkUrl "unknown-a.example" "https://unknown-a.example/1")
            :: [mkUrl "unknown-b.example" "https://unknown-b.example/2"].map some)).2
        = eff1 :: [mkUrl "unknown-b.example" "https://unknown-b.example/2"].map unsupportedEffect
      ∧ eff1.forwarded = []
      ∧ eff1.unsupportedWrites = []
      ∧ (map_url ⟨none, none, none, false, false⟩ ⟨true, none, []⟩
          (some (mkUrl "unknown-a.example" "https://unknown-a.example/1"))).1.jdownloader_enable
        = false :=
  jdownloader_setup_failure_disables_sink _ _ _ _ rfl rfl rfl (by decide) (by decide)
